import Mathlib

/-!
Verification of the FrameQuery Python SDK core (`src/python/src/framequery/`):
response classification (`_base_client.py`), the retrying request executor,
the signed-URL upload and the job poller (`_client.py`, `_async_client.py`),
the error taxonomy (`_errors.py`), and the record mappers (`_models.py`),
shallowly embedded as executable Lean definitions. Machine floats of the
source are modelled as rationals; all arithmetic appearing in the verified
policies (backoff, adaptive polling) is exact on the inputs involved.
-/

/-- Decoded JSON values as produced by `response.json()`; numbers are
modelled as rationals, objects as association lists. -/
inductive Json where
  | null : Json
  | bool (b : Bool) : Json
  | num (q : ℚ) : Json
  | str (s : String) : Json
  | arr (elems : List Json) : Json
  | obj (fields : List (String × Json)) : Json

/-- Python truthiness (`bool(x)`) of a decoded JSON value. -/
def truthy : Json → Bool
  | .null => false
  | .bool b => b
  | .num q => decide (q ≠ 0)
  | .str s => decide (s ≠ "")
  | .arr elems => !elems.isEmpty
  | .obj fields => !fields.isEmpty

/-- `dict.get(key)`: the value stored under `key`, `none` when absent
(Python `None`). -/
def getField (fields : List (String × Json)) (key : String) : Option Json :=
  (fields.find? (fun p => p.1 == key)).map (fun p => p.2)

/-- Python `a or b` applied to two `dict.get` results (`none` models
Python `None`, which is falsy). -/
def pyOr (a b : Option Json) : Option Json :=
  match a with
  | some v => if truthy v then some v else b
  | none => b

/-- Python `str(...)` of a decoded JSON value. A string passes through
unchanged; CPython renders the remaining values via their `repr`-style
forms, abbreviated here for containers since no verified property depends
on the rendering of a non-string payload. -/
def pyStr : Json → String
  | .null => "None"
  | .bool true => "True"
  | .bool false => "False"
  | .num q => toString q
  | .str s => s
  | .arr _ => "[...]"
  | .obj _ => "\x7b...\x7d"

/-- A completed HTTP exchange as seen through `httpx.Response`.
`retryAfter` models the `Retry-After` header as read by both
`_backoff_delay` and `handle_response`: `none` = header absent or empty
(falsy in the `if ra:` guard), `some none` = present but rejected by
`float(...)` with a `ValueError`, `some (some q)` = parses to `q`.
`body` is the result of `response.json()` (`none` when decoding raises),
`text` is `response.text`, and `hasContent` records whether
`response.content` is non-empty. -/
structure Response where
  status : ℕ
  retryAfter : Option (Option ℚ)
  body : Option Json
  text : String
  hasContent : Bool

/-- `httpx.Response.is_success`: status in the 2xx range. -/
def Response.is_success (r : Response) : Bool :=
  decide (200 ≤ r.status) && decide (r.status < 300)

/-- The typed errors of `_errors.py` as raised by `handle_response` and the
clients; each carries the `message` passed to the base `FrameQueryError`
constructor. -/
inductive SdkError where
  | authenticationError (message : String)
  | permissionDeniedError (message : String)
  | notFoundError (message : String)
  | rateLimitError (message : String) (retry_after : Option ℚ)
  | apiError (message : String) (status_code : ℕ) (body : Option Json)
  | jobFailedError (job_id : String) (message : String)
  | frameQueryError (message : String)

/-- The human-readable `message` attribute carried by every error
(`FrameQueryError.__init__` stores it; subclasses pass it through). -/
def SdkError.message : SdkError → String
  | .authenticationError m => m
  | .permissionDeniedError m => m
  | .notFoundError m => m
  | .rateLimitError m _ => m
  | .apiError m _ _ => m
  | .jobFailedError _ m => m
  | .frameQueryError m => m

/-- The message built by `JobFailedError.__init__(job_id, message)`. -/
def jobFailedErrorMessage (job_id msg : String) : String :=
  if msg ≠ "" then "Job " ++ job_id ++ " failed: " ++ msg
  else "Job " ++ job_id ++ " failed"

/-- What `handle_response` does with a response: return an unwrapped
payload (`ok`, with `Json.null` for Python `None`), raise a typed error
(`err`), or let an unhandled JSON decoding exception escape on a 2xx
response whose non-empty body fails to parse (`jsonDecodeError`). -/
inductive ApiOutcome where
  | ok (payload : Json)
  | jsonDecodeError
  | err (e : SdkError)

/-- The failure-message computation of `handle_response`
(`_base_client.py` lines 33–45): start from the generic string, take a
truthy `error` (else `message`) field of a decoded JSON object body, and
fall back to the raw text only when `response.json()` raised. -/
def extractErrorMessage (r : Response) : String :=
  match r.body with
  | some b =>
    match b with
    | .obj fields =>
      match pyOr (getField fields "error") (getField fields "message") with
      | some m => if truthy m then pyStr m else "API error " ++ toString r.status
      | none => "API error " ++ toString r.status
    | _ => "API error " ++ toString r.status
  | none => if r.text ≠ "" then r.text else "API error " ++ toString r.status

/-- `handle_response` (`_base_client.py` lines 23–63): unwrap a 2xx body
(`data` envelope key of an object body, else the whole body, `None` for an
empty body) or raise the typed error selected by the status code. The
`APIError` branch carries the parsed body when `response.json()` succeeded
and `None` otherwise, exactly as the `body` local does in the source. -/
def handle_response (r : Response) : ApiOutcome :=
  if r.is_success then
    if !r.hasContent then .ok .null
    else
      match r.body with
      | none => .jsonDecodeError
      | some b =>
        match b with
        | .obj fields =>
          match getField fields "data" with
          | some v => .ok v
          | none => .ok b
        | _ => .ok b
  else
    let message := extractErrorMessage r
    if r.status = 401 then .err (.authenticationError message)
    else if r.status = 403 then .err (.permissionDeniedError message)
    else if r.status = 404 then .err (.notFoundError message)
    else if r.status = 429 then
      .err (.rateLimitError message
        (match r.retryAfter with
         | some (some v) => some v
         | _ => none))
    else .err (.apiError message r.status r.body)

/-- Modelled from the spec: `_constants.py` is imported by both clients but
is not among the sources; §4.2 fixes the default retry budget as
"default 2 retries ⇒ 3 attempts". -/
def DEFAULT_MAX_RETRIES : ℤ := 2

/-- `_backoff_delay` (`_client.py` lines 278–287): a parseable `Retry-After`
header of the supplied response overrides the exponential backoff
`min(0.5 * 2 ** attempt, 30.0)`. -/
def backoff_delay (attempt : ℕ) (response : Option Response) : ℚ :=
  match response with
  | some r =>
    match r.retryAfter with
    | some (some v) => v
    | some none => min ((1 : ℚ) / 2 * 2 ^ attempt) 30
    | none => min ((1 : ℚ) / 2 * 2 ^ attempt) 30
  | none => min ((1 : ℚ) / 2 * 2 ^ attempt) 30

/-- `_backoff_delay` from `_async_client.py` (lines 236–244), transcribed
separately: its only textual difference from the synchronous variant is a
final `float(...)` coercion, which is the identity in the rational model. -/
def async_backoff_delay (attempt : ℕ) (response : Option Response) : ℚ :=
  match response with
  | some r =>
    match r.retryAfter with
    | some (some v) => v
    | some none => min ((1 : ℚ) / 2 * 2 ^ attempt) 30
    | none => min ((1 : ℚ) / 2 * 2 ^ attempt) 30
  | none => min ((1 : ℚ) / 2 * 2 ^ attempt) 30

/-- One call to `self._client.request(...)`: either a completed exchange or
an `httpx.TransportError` carrying its rendered message. -/
inductive AttemptOutcome where
  | response (r : Response)
  | transportError (msg : String)

/-- How `_do_request` ends: `return resp`, or `raise FrameQueryError(...)`. -/
inductive ExecOutcome where
  | returned (r : Response)
  | raisedFrameQueryError (msg : String)

/-- The retry loop of `FrameQuery._do_request` (`_client.py` lines 201–226)
as a function of the per-attempt outcomes. `rem` is the number of loop
iterations left out of `range(max_retries + 1)`, `a` the current value of
`attempt`, `lastExc` the `last_exc` variable (reset to `None` in the
retryable-status branch of this synchronous variant). The result carries
the returned response or raised error, the number of attempts performed,
and the sequence of `time.sleep` delays in order. -/
def sync_do_request_aux (maxRetries : ℤ) (outcome : ℕ → AttemptOutcome) :
    ℕ → ℕ → Option String → ExecOutcome × ℕ × List ℚ
  | 0, _, lastExc =>
    match lastExc with
    | some e => (.raisedFrameQueryError ("Request failed: " ++ e), 0, [])
    | none => (.raisedFrameQueryError "Request failed", 0, [])
  | rem + 1, a, _ =>
    match outcome a with
    | .response r =>
      if r.status < 500 ∧ r.status ≠ 429 then (.returned r, 1, [])
      else if (a : ℤ) < maxRetries then
        let d := backoff_delay a (some r)
        let rest := sync_do_request_aux maxRetries outcome rem (a + 1) none
        (rest.1, rest.2.1 + 1, d :: rest.2.2)
      else (.returned r, 1, [])
    | .transportError e =>
      if (a : ℤ) < maxRetries then
        let d := backoff_delay a none
        let rest := sync_do_request_aux maxRetries outcome rem (a + 1) (some e)
        (rest.1, rest.2.1 + 1, d :: rest.2.2)
      else (.raisedFrameQueryError ("Request failed after retries: " ++ e), 1, [])

/-- `FrameQuery._do_request`: run the loop over `range(max_retries + 1)`
with `attempt = 0` and `last_exc = None`. -/
def sync_do_request (maxRetries : ℤ) (outcome : ℕ → AttemptOutcome) :
    ExecOutcome × ℕ × List ℚ :=
  sync_do_request_aux maxRetries outcome (maxRetries + 1).toNat 0 none

/-- The retry loop of `AsyncFrameQuery._do_request` (`_async_client.py`
lines 162–186), transcribed separately: unlike the synchronous variant it
does not reset `last_exc` to `None` in the retryable-status branch, and it
waits with `asyncio.sleep` (timing values identical). -/
def async_do_request_aux (maxRetries : ℤ) (outcome : ℕ → AttemptOutcome) :
    ℕ → ℕ → Option String → ExecOutcome × ℕ × List ℚ
  | 0, _, lastExc =>
    match lastExc with
    | some e => (.raisedFrameQueryError ("Request failed: " ++ e), 0, [])
    | none => (.raisedFrameQueryError "Request failed", 0, [])
  | rem + 1, a, lastExc =>
    match outcome a with
    | .response r =>
      if r.status < 500 ∧ r.status ≠ 429 then (.returned r, 1, [])
      else if (a : ℤ) < maxRetries then
        let d := async_backoff_delay a (some r)
        let rest := async_do_request_aux maxRetries outcome rem (a + 1) lastExc
        (rest.1, rest.2.1 + 1, d :: rest.2.2)
      else (.returned r, 1, [])
    | .transportError e =>
      if (a : ℤ) < maxRetries then
        let d := async_backoff_delay a none
        let rest := async_do_request_aux maxRetries outcome rem (a + 1) (some e)
        (rest.1, rest.2.1 + 1, d :: rest.2.2)
      else (.raisedFrameQueryError ("Request failed after retries: " ++ e), 1, [])

/-- `AsyncFrameQuery._do_request`. -/
def async_do_request (maxRetries : ℤ) (outcome : ℕ → AttemptOutcome) :
    ExecOutcome × ℕ × List ℚ :=
  async_do_request_aux maxRetries outcome (maxRetries + 1).toNat 0 none

/-- `str(data.get(key, ""))` as used throughout `_models.py` (absent keys
default to the empty string before `str`). -/
def strFieldD (fields : List (String × Json)) (key : String) : String :=
  match getField fields key with
  | some v => pyStr v
  | none => ""

/-- `float(data.get(key, dflt))` for the numeric fields of `_models.py`;
numbers are modelled as rationals, and non-numeric present values (on which
`float` would raise or coerce) are outside the model. -/
def numField (fields : List (String × Json)) (key : String) (dflt : ℚ) : ℚ :=
  match getField fields key with
  | some (.num q) => q
  | _ => dflt

/-- `list(data.get(key, []))`; non-list present values are outside the
model. -/
def listField (fields : List (String × Json)) (key : String) : List Json :=
  match getField fields key with
  | some (.arr xs) => xs
  | _ => []

/-- The association list of a decoded JSON object, used where `_models.py`
hands a decoded record to a parser expecting a dict; non-dict values are
outside the model. -/
def dictFields : Json → List (String × Json)
  | .obj fields => fields
  | _ => []

/-- `data.get("estimatedCompletionTimeSeconds")` in `_parse_job`: the raw
value, `none` for absence or JSON `null`; non-numeric estimates are outside
the model. -/
def etaOf (data : List (String × Json)) : Option ℚ :=
  match getField data "estimatedCompletionTimeSeconds" with
  | some (.num q) => some q
  | _ => none

/-- `Job` (`_models.py`): a read-only snapshot of a server-side job; `raw`
keeps the full decoded record. -/
structure Job where
  id : String
  status : String
  filename : String
  created_at : String
  eta_seconds : Option ℚ
  raw : List (String × Json)

/-- `Job.is_terminal`. -/
def Job.is_terminal (j : Job) : Bool :=
  j.status == "COMPLETED" || j.status == "COMPLETED_NO_SCENES" || j.status == "FAILED"

/-- `Job.is_complete`. -/
def Job.is_complete (j : Job) : Bool :=
  j.status == "COMPLETED" || j.status == "COMPLETED_NO_SCENES"

/-- `Job.is_failed`. -/
def Job.is_failed (j : Job) : Bool :=
  j.status == "FAILED"

/-- `_parse_job` (`_models.py`). -/
def parse_job (data : List (String × Json)) : Job :=
  ⟨strFieldD data "jobId", strFieldD data "status",
   strFieldD data "originalFilename", strFieldD data "createdAt",
   etaOf data, data⟩

/-- `Scene` (`_models.py`); `objects` keeps the raw decoded labels. -/
structure Scene where
  description : String
  end_time : ℚ
  objects : List Json

/-- `_parse_scene`. -/
def parse_scene (data : List (String × Json)) : Scene :=
  ⟨strFieldD data "description", numField data "endTs" 0, listField data "objects"⟩

/-- `TranscriptSegment` (`_models.py`). -/
structure TranscriptSegment where
  start_time : ℚ
  end_time : ℚ
  text : String

/-- `_parse_transcript_segment`. -/
def parse_transcript_segment (data : List (String × Json)) : TranscriptSegment :=
  ⟨numField data "StartTime" 0, numField data "EndTime" 0, strFieldD data "Text"⟩

/-- `ProcessingResult` (`_models.py`). -/
structure ProcessingResult where
  job_id : String
  status : String
  filename : String
  duration : ℚ
  scenes : List Scene
  transcript : List TranscriptSegment
  created_at : String
  raw : List (String × Json)

/-- `data.get("processedData") or {}` in `_parse_result`: a falsy or absent
value (including an empty object) is replaced by the empty dict. -/
def processedOf (data : List (String × Json)) : List (String × Json) :=
  match getField data "processedData" with
  | some (.obj fields) => fields
  | _ => []

/-- `processed.get(key) or []` in `_parse_result`. -/
def rawListOf (processed : List (String × Json)) (key : String) : List Json :=
  match getField processed key with
  | some (.arr xs) => xs
  | _ => []

/-- `_parse_result` (`_models.py`). -/
def parse_result (data : List (String × Json)) : ProcessingResult :=
  let processed := processedOf data
  ⟨strFieldD data "jobId", strFieldD data "status",
   strFieldD data "originalFilename", numField processed "length" 0,
   (rawListOf processed "scenes").map (fun s => parse_scene (dictFields s)),
   (rawListOf processed "transcript").map
     (fun t => parse_transcript_segment (dictFields t)),
   strFieldD data "createdAt", data⟩

/-- What one iteration of the poll loop body does after fetching a
snapshot: raise `JobFailedError`, return a result, raise the builtin
`TimeoutError`, or fall through to `time.sleep(interval)`. -/
inductive PollStep where
  | raisedJobFailedError (job_id : String) (msg : String)
  | returned (r : ProcessingResult)
  | raisedTimeoutError (timeout : ℚ) (job_id : String)
  | sleep (d : ℚ)

/-- One iteration of the `while True` loop of `FrameQuery._poll`
(`_client.py` lines 240–275), after `get_job` produced `job` and with
`time.time()` reading `now` at the deadline check; `deadline` is
`time.time() + timeout` computed once at entry. The `on_progress` callback
only observes the snapshot and is not modelled. -/
def pollIteration (job_id : String) (job : Job) (now deadline timeout poll_interval : ℚ) :
    PollStep :=
  if job.is_failed then
    .raisedJobFailedError job_id (strFieldD job.raw "errorMessage")
  else if job.is_complete then .returned (parse_result job.raw)
  else if now > deadline then .raisedTimeoutError timeout job_id
  else
    .sleep
      (match job.eta_seconds with
       | some eta => if eta ≠ 0 ∧ eta > 60 then min (eta / 3) 30 else poll_interval
       | none => poll_interval)

/-- How `_poll` ends on a finite trace of snapshots (`outOfTrace` = the
trace ended while the loop would have continued). -/
inductive PollOutcome where
  | raisedJobFailedError (job_id : String) (msg : String)
  | returned (r : ProcessingResult)
  | raisedTimeoutError (timeout : ℚ) (job_id : String)
  | outOfTrace

/-- `FrameQuery._poll` over a finite trace of fetched snapshots, each paired
with the `time.time()` reading at its deadline check; returns the outcome
together with the sequence of `time.sleep` intervals in order. -/
def poll_loop (job_id : String) (deadline timeout poll_interval : ℚ) :
    List (Job × ℚ) → PollOutcome × List ℚ
  | [] => (.outOfTrace, [])
  | (job, now) :: rest =>
    match pollIteration job_id job now deadline timeout poll_interval with
    | .raisedJobFailedError j m => (.raisedJobFailedError j m, [])
    | .returned r => (.returned r, [])
    | .raisedTimeoutError t j => (.raisedTimeoutError t j, [])
    | .sleep d =>
      let rest' := poll_loop job_id deadline timeout poll_interval rest
      (rest'.1, d :: rest'.2)

/-- One iteration of `AsyncFrameQuery._poll` (`_async_client.py` lines
200–235), transcribed separately; it differs from the synchronous loop only
in awaiting `asyncio.sleep` instead of calling `time.sleep`. -/
def async_pollIteration (job_id : String) (job : Job)
    (now deadline timeout poll_interval : ℚ) : PollStep :=
  if job.is_failed then
    .raisedJobFailedError job_id (strFieldD job.raw "errorMessage")
  else if job.is_complete then .returned (parse_result job.raw)
  else if now > deadline then .raisedTimeoutError timeout job_id
  else
    .sleep
      (match job.eta_seconds with
       | some eta => if eta ≠ 0 ∧ eta > 60 then min (eta / 3) 30 else poll_interval
       | none => poll_interval)

/-- `AsyncFrameQuery._poll` over a finite trace of fetched snapshots. -/
def async_poll_loop (job_id : String) (deadline timeout poll_interval : ℚ) :
    List (Job × ℚ) → PollOutcome × List ℚ
  | [] => (.outOfTrace, [])
  | (job, now) :: rest =>
    match async_pollIteration job_id job now deadline timeout poll_interval with
    | .raisedJobFailedError j m => (.raisedJobFailedError j m, [])
    | .returned r => (.returned r, [])
    | .raisedTimeoutError t j => (.raisedTimeoutError t j, [])
    | .sleep d =>
      let rest' := async_poll_loop job_id deadline timeout poll_interval rest
      (rest'.1, d :: rest'.2)

/-- Modelled from the spec: `_constants.py` is absent from the sources; §6
only requires "a client identifying user-agent string", whose exact value
no verified property depends on. -/
def USER_AGENT : String := "framequery-python"

/-- `build_headers` (`_base_client.py` lines 17–21): the default headers
installed on the underlying `httpx` client at construction. -/
def build_headers (api_key user_agent : String) : List (String × String) :=
  [("Authorization", "Bearer " ++ api_key), ("User-Agent", user_agent)]

/-- `httpx` merges per-request headers into the client's default headers
(`httpx.Client` request building): request-level values replace same-named
defaults and every other default is kept on the outgoing request. -/
def mergeHeaders (clientHeaders requestHeaders : List (String × String)) :
    List (String × String) :=
  clientHeaders.filter (fun p => !(requestHeaders.any (fun q => q.1 == p.1)))
    ++ requestHeaders

/-- The headers of the single `self._client.put(...)` issued by
`FrameQuery._upload_to_signed_url` (`_client.py` lines 228–238): the
per-request `Content-Type` merged into the client defaults built by
`build_headers` at `__init__` (lines 60–63). -/
def upload_put_headers (api_key : String) : List (String × String) :=
  mergeHeaders (build_headers api_key USER_AGENT)
    [("Content-Type", "application/octet-stream")]

/-- How `_upload_to_signed_url` ends. -/
inductive UploadOutcome where
  | ok
  | raisedFrameQueryError (msg : String)

/-- The response handling of `FrameQuery._upload_to_signed_url`: the PUT is
issued exactly once via `self._client.put` (never through `_do_request`, so
no retry applies), and a non-success response raises the base
`FrameQueryError`, not a classified subtype. -/
def upload_to_signed_url (resp : Response) : UploadOutcome :=
  if resp.is_success then .ok
  else
    .raisedFrameQueryError
      ("Upload to signed URL failed with status " ++ toString resp.status)

/-- The exception classes raised by the public operations: the SDK classes
of `_errors.py` plus the CPython builtins the clients raise directly
(`ValueError` in `__init__`, `FileNotFoundError` in `upload`, the builtin
`TimeoutError` in `_poll`). -/
inductive ExcClass where
  | exceptionClass
  | osError
  | valueError
  | fileNotFoundError
  | timeoutError
  | frameQueryError
  | authenticationError
  | permissionDeniedError
  | notFoundError
  | rateLimitError
  | apiError
  | jobFailedError
deriving DecidableEq

/-- The direct base class of each exception, from the class headers of
`_errors.py` and the CPython builtin hierarchy (`FileNotFoundError` and the
builtin `TimeoutError` subclass `OSError`; `ValueError` subclasses
`Exception`). -/
def parentClass : ExcClass → Option ExcClass
  | .exceptionClass => none
  | .osError => some .exceptionClass
  | .valueError => some .exceptionClass
  | .fileNotFoundError => some .osError
  | .timeoutError => some .osError
  | .frameQueryError => some .exceptionClass
  | .authenticationError => some .frameQueryError
  | .permissionDeniedError => some .frameQueryError
  | .notFoundError => some .frameQueryError
  | .rateLimitError => some .frameQueryError
  | .apiError => some .frameQueryError
  | .jobFailedError => some .frameQueryError

/-- Walk up the base-class chain (the hierarchy above has depth at most 3,
so a fuel of 4 is exhaustive). -/
def ancestorsAux : ℕ → Option ExcClass → List ExcClass
  | 0, _ => []
  | _, none => []
  | n + 1, some c => c :: ancestorsAux n (parentClass c)

/-- All strict superclasses of an exception class. -/
def ancestors (c : ExcClass) : List ExcClass :=
  ancestorsAux 4 (parentClass c)

/-- Python `issubclass(c, base)`. -/
def derivesFrom (c base : ExcClass) : Bool :=
  c == base || (ancestors c).contains base

/-- The exception class raised for each poll outcome: `JobFailedError` is
SDK-defined, while the deadline branch executes `raise TimeoutError(...)`
(`_client.py` lines 264–267) — the CPython builtin, since `_errors.py`
defines no such class and `_client.py` imports none. -/
def pollOutcomeClass : PollOutcome → Option ExcClass
  | .raisedJobFailedError _ _ => some .jobFailedError
  | .raisedTimeoutError _ _ => some .timeoutError
  | .returned _ => none
  | .outOfTrace => none

/-- `resolved_key = api_key or os.environ.get("FRAMEQUERY_API_KEY", "")`
(`_client.py` lines 51–52 and `_async_client.py` lines 47–48); `env` is the
environment binding of `FRAMEQUERY_API_KEY`. -/
def resolve_api_key (api_key env : Option String) : String :=
  match api_key with
  | some k => if k ≠ "" then k else env.getD ""
  | none => env.getD ""

/-- How `__init__` ends: a constructed client holding the resolved key, or
an immediate `ValueError`. -/
inductive InitOutcome where
  | ok (api_key : String)
  | raisedValueError (msg : String)

/-- The key resolution of `FrameQuery.__init__` (`_client.py` lines 44–57):
resolve, then fail fast with `ValueError` before any request machinery is
touched. -/
def framequery_init (api_key env : Option String) : InitOutcome :=
  let resolved := resolve_api_key api_key env
  if resolved = "" then
    .raisedValueError
      "api_key is required. Pass it explicitly or set FRAMEQUERY_API_KEY."
  else .ok resolved

/-- The key resolution of `AsyncFrameQuery.__init__` (`_async_client.py`
lines 40–53), textually identical to the synchronous variant. -/
def async_framequery_init (api_key env : Option String) : InitOutcome :=
  let resolved := resolve_api_key api_key env
  if resolved = "" then
    .raisedValueError
      "api_key is required. Pass it explicitly or set FRAMEQUERY_API_KEY."
  else .ok resolved

/-- C3: `handle_response` classifies every non-2xx response by status code —
401 ↦ `AuthenticationError`, 403 ↦ `PermissionDeniedError`, 404 ↦
`NotFoundError`, 429 ↦ `RateLimitError` whose `retry_after` is the
`Retry-After` header parsed as a float (`none` when absent or unparseable),
and any other non-2xx ↦ `APIError` carrying the status code and the parsed
body — and unwraps every 2xx response: the value under the `data` key when
the parsed body is a JSON object containing it, else the whole parsed body,
and a `None` value for an empty successful body. -/
theorem handle_response_classification (r : Response) :
    (r.status = 401 → ∃ m, handle_response r = .err (.authenticationError m)) ∧
    (r.status = 403 → ∃ m, handle_response r = .err (.permissionDeniedError m)) ∧
    (r.status = 404 → ∃ m, handle_response r = .err (.notFoundError m)) ∧
    (r.status = 429 →
      ∃ m, handle_response r =
        .err (.rateLimitError m
          (match r.retryAfter with
           | some (some v) => some v
           | _ => none))) ∧
    (¬ (200 ≤ r.status ∧ r.status < 300) →
      r.status ≠ 401 → r.status ≠ 403 → r.status ≠ 404 → r.status ≠ 429 →
      ∃ m, handle_response r = .err (.apiError m r.status r.body)) ∧
    (200 ≤ r.status ∧ r.status < 300 → r.hasContent = false →
      handle_response r = .ok .null) ∧
    (200 ≤ r.status ∧ r.status < 300 → r.hasContent = true →
      ∀ fields v, r.body = some (.obj fields) →
        getField fields "data" = some v → handle_response r = .ok v) ∧
    (200 ≤ r.status ∧ r.status < 300 → r.hasContent = true →
      ∀ b, r.body = some b →
        (∀ fields, b = .obj fields → getField fields "data" = none) →
        handle_response r = .ok b) := by
  refine ⟨?_, ?_, ?_, ?_, ?_, ?_, ?_, ?_⟩
  · intro h
    refine ⟨extractErrorMessage r, ?_⟩
    simp [handle_response, Response.is_success, h]
  · intro h
    refine ⟨extractErrorMessage r, ?_⟩
    simp [handle_response, Response.is_success, h]
  · intro h
    refine ⟨extractErrorMessage r, ?_⟩
    simp [handle_response, Response.is_success, h]
  · intro h
    refine ⟨extractErrorMessage r, ?_⟩
    simp [handle_response, Response.is_success, h]
  · intro hsx h401 h403 h404 h429
    have hs : r.is_success = false := by
      simp only [Response.is_success, Bool.and_eq_false_iff, decide_eq_false_iff_not]
      omega
    refine ⟨extractErrorMessage r, ?_⟩
    simp [handle_response, hs, h401, h403, h404, h429]
  · intro hsx hc
    have hs : r.is_success = true := by
      simp only [Response.is_success, Bool.and_eq_true, decide_eq_true_eq]
      omega
    simp [handle_response, hs, hc]
  · intro hsx hc fields v hb hd
    have hs : r.is_success = true := by
      simp only [Response.is_success, Bool.and_eq_true, decide_eq_true_eq]
      omega
    simp [handle_response, hs, hc, hb, hd]
  · intro hsx hc b hb hno
    have hs : r.is_success = true := by
      simp only [Response.is_success, Bool.and_eq_true, decide_eq_true_eq]
      omega
    cases b with
    | obj fields => simp [handle_response, hs, hc, hb, hno fields rfl]
    | null => simp [handle_response, hs, hc, hb]
    | bool c => simp [handle_response, hs, hc, hb]
    | num q => simp [handle_response, hs, hc, hb]
    | str s => simp [handle_response, hs, hc, hb]
    | arr xs => simp [handle_response, hs, hc, hb]

/-- C3 witness: the classifier applied to concrete 401, 429 (with
`Retry-After: 2`) and 200 (`body = ⦃data: ⦃x: 1⦄⦄`) exchanges. -/
theorem handle_response_classification_witness :
    (∃ m, handle_response ⟨401, none, none, "", false⟩ =
      .err (.authenticationError m)) ∧
    (∃ m, handle_response ⟨429, some (some 2), none, "", false⟩ =
      .err (.rateLimitError m (some 2))) ∧
    handle_response
        ⟨200, none, some (.obj [("data", .obj [("x", .num 1)])]), "", true⟩ =
      .ok (.obj [("x", .num 1)]) := by
  refine ⟨(handle_response_classification _).1 rfl, ?_, ?_⟩
  · exact (handle_response_classification
      ⟨429, some (some 2), none, "", false⟩).2.2.2.1 rfl
  · exact (handle_response_classification _).2.2.2.2.2.2.1 (by decide) rfl _ _ rfl rfl

/-- C7: contrary to the claim that the signed-URL PUT carries no
Authorization header, httpx merges the client's default headers (installed
at `__init__` via `build_headers`, including `Authorization: Bearer <key>`)
into every request, and `_upload_to_signed_url` only adds `Content-Type`
without removing the default — so the PUT does send the bearer token to the
signed URL. The PUT does carry `Content-Type: application/octet-stream`,
and a non-success response raises the base `FrameQueryError`. -/
theorem upload_put_sends_authorization :
    upload_put_headers "fq_test" =
      [("Authorization", "Bearer fq_test"), ("User-Agent", USER_AGENT),
       ("Content-Type", "application/octet-stream")] ∧
    upload_to_signed_url ⟨403, none, none, "", false⟩ =
      .raisedFrameQueryError "Upload to signed URL failed with status 403" := by
  constructor <;> rfl

/-- C8 counterexample: on a non-terminal snapshot observed past the
deadline, the poller raises an exception of class `timeoutError` — the
CPython builtin `TimeoutError`, since `_errors.py` defines no timeout class
and `_client.py` imports none — and that class does not derive from
`FrameQueryError`, so the timeout condition is not a member of the SDK
taxonomy as the claim states. -/
theorem poll_timeout_outside_taxonomy :
    pollOutcomeClass
        (poll_loop "job-1" 0 0 5
          [(⟨"job-1", "PENDING", "v.mp4", "", none, []⟩, 1)]).1 =
      some .timeoutError ∧
    derivesFrom .timeoutError .frameQueryError = false := by
  constructor <;> rfl

/-- C8 amended: every SDK-defined error type raised by the public
operations (`AuthenticationError`, `PermissionDeniedError`, `NotFoundError`,
`RateLimitError`, `APIError`, `JobFailedError`) derives from the single
base `FrameQueryError` carrying a human-readable message, and
`FrameQueryError` derives from `Exception`; the poll-deadline timeout,
however, is raised as the CPython builtin `TimeoutError`, which lies
outside that hierarchy (it derives from `OSError`). -/
theorem sdk_errors_derive_from_base :
    derivesFrom .authenticationError .frameQueryError = true ∧
    derivesFrom .permissionDeniedError .frameQueryError = true ∧
    derivesFrom .notFoundError .frameQueryError = true ∧
    derivesFrom .rateLimitError .frameQueryError = true ∧
    derivesFrom .apiError .frameQueryError = true ∧
    derivesFrom .jobFailedError .frameQueryError = true ∧
    derivesFrom .frameQueryError .exceptionClass = true ∧
    derivesFrom .timeoutError .frameQueryError = false ∧
    derivesFrom .timeoutError .osError = true := by decide

/-- C10: both clients resolve the API key as the explicitly passed value
when it yields a key, else the `FRAMEQUERY_API_KEY` environment variable
when that yields one, and when neither does, construction itself raises
`ValueError` immediately; whenever either source yields a key, construction
succeeds with that key. -/
theorem init_api_key_resolution (api_key env : Option String) :
    (∀ k, api_key = some k → k ≠ "" →
      framequery_init api_key env = .ok k ∧
      async_framequery_init api_key env = .ok k) ∧
    (∀ e, (api_key = none ∨ api_key = some "") → env = some e → e ≠ "" →
      framequery_init api_key env = .ok e ∧
      async_framequery_init api_key env = .ok e) ∧
    ((api_key = none ∨ api_key = some "") → (env = none ∨ env = some "") →
      framequery_init api_key env =
        .raisedValueError
          "api_key is required. Pass it explicitly or set FRAMEQUERY_API_KEY." ∧
      async_framequery_init api_key env =
        .raisedValueError
          "api_key is required. Pass it explicitly or set FRAMEQUERY_API_KEY.") := by
  refine ⟨?_, ?_, ?_⟩
  · rintro k rfl hk
    constructor <;>
      simp [framequery_init, async_framequery_init, resolve_api_key, hk]
  · rintro e (rfl | rfl) rfl he <;> constructor <;>
      simp [framequery_init, async_framequery_init, resolve_api_key, he]
  · rintro (rfl | rfl) (rfl | rfl) <;> constructor <;>
      simp [framequery_init, async_framequery_init, resolve_api_key]

/-- C10 witness: an explicit key, an environment-only key, and the
fail-fast `ValueError` when neither source yields one. -/
theorem init_api_key_resolution_witness :
    framequery_init (some "fq_key") none = .ok "fq_key" ∧
    framequery_init none (some "env_key") = .ok "env_key" ∧
    framequery_init none none =
      .raisedValueError
        "api_key is required. Pass it explicitly or set FRAMEQUERY_API_KEY." :=
  ⟨((init_api_key_resolution (some "fq_key") none).1 "fq_key" rfl
      (by decide)).1,
   ((init_api_key_resolution none (some "env_key")).2.1 "env_key" (Or.inl rfl)
      rfl (by decide)).1,
   ((init_api_key_resolution none none).2.2 (Or.inl rfl) (Or.inl rfl)).1⟩

/-- Every typed error raised by `handle_response` carries the message
computed by `extractErrorMessage` (the `message` local of the source). -/
theorem err_message_eq (r : Response) (e : SdkError)
    (hsx : r.is_success = false) (he : handle_response r = .err e) :
    e.message = extractErrorMessage r := by
  simp only [handle_response, hsx, Bool.false_eq_true, if_false] at he
  by_cases h1 : r.status = 401
  · rw [if_pos h1] at he; cases he; rfl
  rw [if_neg h1] at he
  by_cases h2 : r.status = 403
  · rw [if_pos h2] at he; cases he; rfl
  rw [if_neg h2] at he
  by_cases h3 : r.status = 404
  · rw [if_pos h3] at he; cases he; rfl
  rw [if_neg h3] at he
  by_cases h4 : r.status = 429
  · rw [if_pos h4] at he; cases he; rfl
  rw [if_neg h4] at he
  cases he; rfl

/-- C9 counterexample: for a 402 response whose JSON object body contains
an `error` field with the falsy value `""` and whose raw text is the
non-empty string `x`, the raised error's message is the generic
`API error 402` — neither the `error` field's value (the claim's first
case: the field is present, but the code only uses truthy values) nor the
raw response text (the claim's fallback: the body parsed successfully, so
the text fallback is never reached). -/
theorem error_message_cex :
    handle_response ⟨402, none, some (.obj [("error", .str "")]), "x", true⟩ =
      .err (.apiError "API error 402" 402 (some (.obj [("error", .str "")]))) ∧
    ("API error 402" : String) ≠ "" ∧ ("API error 402" : String) ≠ "x" :=
  ⟨rfl, by decide, by decide⟩

/-- C9 amended: for every non-2xx response, the raised error's message is
`str()` of the value selected by `body.get("error") or body.get("message")`
when the body parses as a JSON object and that value is truthy; it is the
generic `API error {status}` when the body parses as JSON without yielding
such a truthy value (an object without one, or a non-object); the raw
response text is used only when the body fails to parse as JSON and the
text is non-empty; otherwise the generic string is used. -/
theorem error_message_extraction (r : Response) (e : SdkError)
    (hsx : ¬ (200 ≤ r.status ∧ r.status < 300))
    (he : handle_response r = .err e) :
    (∀ fields m, r.body = some (.obj fields) →
      pyOr (getField fields "error") (getField fields "message") = some m →
      truthy m = true → e.message = pyStr m) ∧
    (∀ fields, r.body = some (.obj fields) →
      (∀ m, pyOr (getField fields "error") (getField fields "message") = some m →
        truthy m = false) →
      e.message = "API error " ++ toString r.status) ∧
    (∀ b, r.body = some b → (∀ fields, b ≠ .obj fields) →
      e.message = "API error " ++ toString r.status) ∧
    (r.body = none → r.text ≠ "" → e.message = r.text) ∧
    (r.body = none → r.text = "" →
      e.message = "API error " ++ toString r.status) := by
  have hs : r.is_success = false := by
    simp only [Response.is_success, Bool.and_eq_false_iff, decide_eq_false_iff_not]
    omega
  have hm := err_message_eq r e hs he
  refine ⟨?_, ?_, ?_, ?_, ?_⟩
  · intro fields m hb hor ht
    rw [hm]
    simp [extractErrorMessage, hb, hor, ht]
  · intro fields hb hall
    rw [hm]
    cases hpo : pyOr (getField fields "error") (getField fields "message") with
    | none => simp [extractErrorMessage, hb, hpo]
    | some m => simp [extractErrorMessage, hb, hpo, hall m hpo]
  · intro b hb hno
    rw [hm]
    cases b with
    | obj fields => exact absurd rfl (hno fields)
    | null => simp [extractErrorMessage, hb]
    | bool c => simp [extractErrorMessage, hb]
    | num q => simp [extractErrorMessage, hb]
    | str s => simp [extractErrorMessage, hb]
    | arr xs => simp [extractErrorMessage, hb]
  · intro hb ht
    rw [hm]
    simp [extractErrorMessage, hb, ht]
  · intro hb ht
    rw [hm]
    simp [extractErrorMessage, hb, ht]

/-- C9 witness: a 500 response with body `⦃error: "boom"⦄` raises an error
whose message is the `error` field's value. -/
theorem error_message_extraction_witness :
    (SdkError.apiError "boom" 500 (some (.obj [("error", .str "boom")]))).message =
      pyStr (.str "boom") :=
  (error_message_extraction
      ⟨500, none, some (.obj [("error", .str "boom")]), "", true⟩
      (.apiError "boom" 500 (some (.obj [("error", .str "boom")])))
      (by decide) rfl).1 [("error", .str "boom")] (.str "boom") rfl rfl rfl

/-- C4: on every poll iteration the failed-terminal and successful-terminal
checks precede the deadline check — a successful-terminal snapshot returns
a `ProcessingResult` and a failed-terminal one raises the job-failure
condition regardless of the deadline, so a poll with `timeout = 0` whose
first snapshot is successful-terminal returns a result rather than timing
out — and the timeout condition arises only on an iteration whose snapshot
is non-terminal and whose current time exceeds the deadline computed once
at entry. -/
theorem poll_terminal_checks_precede_deadline
    (job_id : String) (job : Job) (now deadline timeout base : ℚ) :
    (job.is_complete = true →
      pollIteration job_id job now deadline timeout base =
        .returned (parse_result job.raw)) ∧
    (job.is_failed = true →
      pollIteration job_id job now deadline timeout base =
        .raisedJobFailedError job_id (strFieldD job.raw "errorMessage")) ∧
    (∀ t j, pollIteration job_id job now deadline timeout base =
        .raisedTimeoutError t j →
      job.is_terminal = false ∧ now > deadline) ∧
    (∀ t0 rest, job.is_complete = true →
      (poll_loop job_id (t0 + 0) 0 base ((job, now) :: rest)).1 =
        .returned (parse_result job.raw)) := by
  have hcomplete : ∀ dl tmo, job.is_complete = true →
      pollIteration job_id job now dl tmo base =
        .returned (parse_result job.raw) := by
    intro dl tmo h
    have hf : job.is_failed = false := by
      simp only [Job.is_complete, Bool.or_eq_true, beq_iff_eq] at h
      simp only [Job.is_failed, beq_eq_false_iff_ne]
      rcases h with h | h <;> simp [h]
    simp [pollIteration, hf, h]
  refine ⟨hcomplete deadline timeout, ?_, ?_, ?_⟩
  · intro h
    simp [pollIteration, h]
  · intro t j heq
    unfold pollIteration at heq
    by_cases hf : job.is_failed = true
    · rw [if_pos hf] at heq; cases heq
    rw [if_neg hf] at heq
    by_cases hc : job.is_complete = true
    · rw [if_pos hc] at heq; cases heq
    rw [if_neg hc] at heq
    by_cases hd : now > deadline
    · refine ⟨?_, hd⟩
      rw [Bool.not_eq_true] at hf hc
      simp only [Job.is_failed] at hf
      simp only [Job.is_complete, Bool.or_eq_false_iff] at hc
      simp [Job.is_terminal, hf, hc.1, hc.2]
    · rw [if_neg hd] at heq; cases heq
  · intro t0 rest h
    have hstep := hcomplete (t0 + 0) 0 h
    simp only [add_zero] at hstep
    simp [poll_loop, hstep]

/-- C4 witness: `timeout = 0` (deadline = entry time) with a first snapshot
already `COMPLETED` returns the mapped result. -/
theorem poll_terminal_checks_precede_deadline_witness :
    (poll_loop "j" (0 + 0) 0 5
        [(⟨"j", "COMPLETED", "v.mp4", "", none, []⟩, 0)]).1 =
      .returned (parse_result []) :=
  (poll_terminal_checks_precede_deadline "j"
      ⟨"j", "COMPLETED", "v.mp4", "", none, []⟩ 0 0 0 5).2.2.2 0 [] rfl

/-- C5: on every non-terminal poll iteration that has not reached the
deadline, the wait before the next fetch is `min(eta / 3, 30)` when the
server-reported estimated-remaining-seconds `eta` exceeds 60, and the
caller-supplied base interval otherwise — including when no estimate is
reported. -/
theorem poll_adaptive_interval
    (job_id : String) (job : Job) (now deadline timeout base : ℚ)
    (hterm : job.is_terminal = false) (hdl : ¬ now > deadline) :
    (∀ eta, job.eta_seconds = some eta → eta > 60 →
      pollIteration job_id job now deadline timeout base =
        .sleep (min (eta / 3) 30)) ∧
    ((∀ eta, job.eta_seconds = some eta → eta ≤ 60) →
      pollIteration job_id job now deadline timeout base = .sleep base) := by
  have hf : job.is_failed = false := by
    simp only [Job.is_terminal, Bool.or_eq_false_iff] at hterm
    simpa only [Job.is_failed] using hterm.2
  have hc : job.is_complete = false := by
    simp only [Job.is_terminal, Bool.or_eq_false_iff] at hterm
    simp only [Job.is_complete, Bool.or_eq_false_iff]
    exact hterm.1
  constructor
  · intro eta heta hgt
    have hne : eta ≠ 0 := ne_of_gt (by linarith : (0 : ℚ) < eta)
    simp [pollIteration, hf, hc, hdl, heta, hne, hgt]
  · intro hle
    cases heta : job.eta_seconds with
    | none => simp [pollIteration, hf, hc, hdl, heta]
    | some eta =>
      have h60 := hle eta heta
      have hnot : ¬ (eta ≠ 0 ∧ eta > 60) := by
        rintro ⟨-, hgt⟩
        linarith
      simp [pollIteration, hf, hc, hdl, heta, hnot]

/-- C5 witness: the spec's mock sequence — an estimate of 120 yields a wait
of `min(120/3, 30)`, an estimate of 30 yields the base interval of 5. -/
theorem poll_adaptive_interval_witness :
    pollIteration "j" ⟨"j", "PENDING", "v.mp4", "", some 120, []⟩ 0 100 100 5 =
      .sleep (min ((120 : ℚ) / 3) 30) ∧
    pollIteration "j" ⟨"j", "PENDING", "v.mp4", "", some 30, []⟩ 0 100 100 5 =
      .sleep 5 :=
  ⟨(poll_adaptive_interval "j" ⟨"j", "PENDING", "v.mp4", "", some 120, []⟩
      0 100 100 5 rfl (by decide)).1 120 rfl (by norm_num),
   (poll_adaptive_interval "j" ⟨"j", "PENDING", "v.mp4", "", some 30, []⟩
      0 100 100 5 rfl (by decide)).2 (fun eta h => by cases h; norm_num)⟩

/-- When every completed exchange of the run is retryable (status ≥ 500 or
= 429), a loop entry with `rem` of the `max_retries + 1` iterations left
performs exactly `rem` further attempts. -/
theorem sync_do_request_aux_all_retryable
    (maxRetries : ℤ) (outcome : ℕ → AttemptOutcome)
    (hall : ∀ i r, outcome i = .response r → 500 ≤ r.status ∨ r.status = 429) :
    ∀ (rem a : ℕ) (lastExc : Option String), 1 ≤ rem →
      (a : ℤ) + (rem : ℤ) = maxRetries + 1 →
      (sync_do_request_aux maxRetries outcome rem a lastExc).2.1 = rem := by
  intro rem
  induction rem with
  | zero =>
    intro a lastExc h hsum
    exact absurd h (by omega)
  | succ n ih =>
    intro a lastExc h hsum
    cases houtcome : outcome a with
    | response r =>
      have hnot : ¬ (r.status < 500 ∧ r.status ≠ 429) := by
        rcases hall a r houtcome with hge | he429
        · rintro ⟨hlt, -⟩
          omega
        · rintro ⟨-, hne⟩
          exact hne he429
      by_cases hlt : (a : ℤ) < maxRetries
      · have hn1 : 1 ≤ n := by omega
        have hrec := ih (a + 1) none hn1 (by push_cast at hsum ⊢; omega)
        simp [sync_do_request_aux, houtcome, hnot, hlt, hrec]
      · have hn0 : n = 0 := by omega
        subst hn0
        simp [sync_do_request_aux, houtcome, hnot, hlt]
    | transportError e =>
      by_cases hlt : (a : ℤ) < maxRetries
      · have hn1 : 1 ≤ n := by omega
        have hrec := ih (a + 1) (some e) hn1 (by push_cast at hsum ⊢; omega)
        simp [sync_do_request_aux, houtcome, hlt, hrec]
      · have hn0 : n = 0 := by omega
        subst hn0
        simp [sync_do_request_aux, houtcome, hlt]

/-- C1: when every completed exchange has status ≥ 500 or = 429, the
executor performs exactly `max_retries + 1` total attempts before giving up
(transport-level failures being retried within the same attempt limit,
since the hypothesis leaves them unconstrained), the default budget is
`DEFAULT_MAX_RETRIES + 1 = 3` attempts, and a first exchange with status
< 500 and ≠ 429 is returned immediately after exactly one attempt with no
delay. -/
theorem do_request_attempt_counts (maxRetries : ℤ) (outcome : ℕ → AttemptOutcome) :
    (0 ≤ maxRetries →
      (∀ i r, outcome i = .response r → 500 ≤ r.status ∨ r.status = 429) →
      ((sync_do_request maxRetries outcome).2.1 : ℤ) = maxRetries + 1) ∧
    (0 ≤ maxRetries →
      ∀ r, outcome 0 = .response r → r.status < 500 → r.status ≠ 429 →
        sync_do_request maxRetries outcome = (.returned r, 1, [])) ∧
    DEFAULT_MAX_RETRIES + 1 = 3 := by
  refine ⟨?_, ?_, by decide⟩
  · intro hm hall
    have h1 : 1 ≤ (maxRetries + 1).toNat := by omega
    have h2 : (((0 : ℕ) : ℤ)) + (((maxRetries + 1).toNat : ℕ) : ℤ) = maxRetries + 1 := by
      omega
    have hcount := sync_do_request_aux_all_retryable maxRetries outcome hall
      (maxRetries + 1).toNat 0 none h1 h2
    unfold sync_do_request
    rw [hcount]
    omega
  · intro hm r h0 hlt hne
    unfold sync_do_request
    obtain ⟨k, hk⟩ : ∃ k, (maxRetries + 1).toNat = k + 1 :=
      ⟨maxRetries.toNat, by omega⟩
    rw [hk]
    have hcond : r.status < 500 ∧ r.status ≠ 429 := ⟨hlt, hne⟩
    simp [sync_do_request_aux, h0, hcond]

/-- C1 witness: with the default budget, a run of constant 500 responses
makes 3 attempts, and a first 404 response is returned after 1 attempt. -/
theorem do_request_attempt_counts_witness :
    ((sync_do_request DEFAULT_MAX_RETRIES
        (fun _ => .response ⟨500, none, none, "", false⟩)).2.1 : ℤ) =
      DEFAULT_MAX_RETRIES + 1 ∧
    sync_do_request DEFAULT_MAX_RETRIES
        (fun _ => .response ⟨404, none, none, "", false⟩) =
      (.returned ⟨404, none, none, "", false⟩, 1, []) :=
  ⟨(do_request_attempt_counts DEFAULT_MAX_RETRIES
        (fun _ => .response ⟨500, none, none, "", false⟩)).1 (by decide)
      (fun i r h => by cases h; exact Or.inl (by decide)),
   (do_request_attempt_counts DEFAULT_MAX_RETRIES
        (fun _ => .response ⟨404, none, none, "", false⟩)).2.1 (by decide)
      ⟨404, none, none, "", false⟩ rfl (by decide) (by decide)⟩

/-- Every delay recorded by the retry loop is `_backoff_delay` of the
attempt it follows: the parsed `Retry-After` value of that attempt's
completed response when one parses, else `min(0.5 * 2^attempt, 30.0)`;
after a transport failure no response exists and the computed backoff is
always used. -/
theorem sync_do_request_aux_delays (maxRetries : ℤ) (outcome : ℕ → AttemptOutcome) :
    ∀ rem a lastExc i d,
      ((sync_do_request_aux maxRetries outcome rem a lastExc).2.2).get? i = some d →
      d = match outcome (a + i) with
          | .response r =>
            match r.retryAfter with
            | some (some v) => v
            | _ => min ((1 : ℚ) / 2 * 2 ^ (a + i)) 30
          | .transportError _ => min ((1 : ℚ) / 2 * 2 ^ (a + i)) 30 := by
  intro rem
  induction rem with
  | zero =>
    intro a lastExc i d h
    cases lastExc <;> simp [sync_do_request_aux, List.get?] at h
  | succ n ih =>
    intro a lastExc i d h
    cases houtcome : outcome a with
    | response r =>
      by_cases hcond : r.status < 500 ∧ r.status ≠ 429
      · simp [sync_do_request_aux, houtcome, hcond, List.get?] at h
      · by_cases hlt : (a : ℤ) < maxRetries
        · simp only [sync_do_request_aux, houtcome, if_neg hcond, if_pos hlt] at h
          cases i with
          | zero =>
            simp [List.get?] at h
            subst h
            simp only [Nat.add_zero, houtcome]
            cases hra : r.retryAfter with
            | none => simp [backoff_delay, hra]
            | some o => cases o <;> simp [backoff_delay, hra]
          | succ j =>
            simp only [List.get?] at h
            have hrec := ih (a + 1) none j d h
            have harith : a + 1 + j = a + (j + 1) := by omega
            rw [harith] at hrec
            exact hrec
        · simp [sync_do_request_aux, houtcome, hcond, hlt, List.get?] at h
    | transportError e =>
      by_cases hlt : (a : ℤ) < maxRetries
      · simp only [sync_do_request_aux, houtcome, if_pos hlt] at h
        cases i with
        | zero =>
          simp [List.get?] at h
          subst h
          simp only [Nat.add_zero, houtcome]
          simp [backoff_delay]
        | succ j =>
          simp only [List.get?] at h
          have hrec := ih (a + 1) (some e) j d h
          have harith : a + 1 + j = a + (j + 1) := by omega
          rw [harith] at hrec
          exact hrec
      · simp [sync_do_request_aux, houtcome, hlt, List.get?] at h

/-- C2: the i-th recorded wait of `_do_request` (the delay slept after
attempt i, 0-indexed) equals `min(0.5 * 2^i, 30.0)` seconds, except that
when attempt i's completed response carries a `Retry-After` header whose
value parses as a float, that parsed value is used instead for that one
wait; a header that fails to parse is ignored in favour of the computed
backoff, and transport failures always use the computed backoff. -/
theorem do_request_backoff_delays (maxRetries : ℤ) (outcome : ℕ → AttemptOutcome)
    (i : ℕ) (d : ℚ)
    (h : ((sync_do_request maxRetries outcome).2.2).get? i = some d) :
    d = match outcome i with
        | .response r =>
          match r.retryAfter with
          | some (some v) => v
          | _ => min ((1 : ℚ) / 2 * 2 ^ i) 30
        | .transportError _ => min ((1 : ℚ) / 2 * 2 ^ i) 30 := by
  have hrec := sync_do_request_aux_delays maxRetries outcome
    (maxRetries + 1).toNat 0 none i d h
  simpa using hrec

/-- C2 witness: a 503 response with `Retry-After: 7` makes the first wait
7 seconds rather than the computed backoff. -/
theorem do_request_backoff_delays_witness :
    (7 : ℚ) =
      match (fun _ : ℕ =>
          AttemptOutcome.response ⟨503, some (some 7), none, "", false⟩) 0 with
      | .response r =>
        match r.retryAfter with
        | some (some v) => v
        | _ => min ((1 : ℚ) / 2 * 2 ^ (0 : ℕ)) 30
      | .transportError _ => min ((1 : ℚ) / 2 * 2 ^ (0 : ℕ)) 30 :=
  do_request_backoff_delays 1
    (fun _ => .response ⟨503, some (some 7), none, "", false⟩) 0 7 rfl

/-- The synchronous and asynchronous retry loops agree from every loop
state reachable under the iteration invariant: the synchronous loop resets
`last_exc` on retryable statuses while the asynchronous one keeps it, but
the only state that could observe the difference — exhausting the loop with
the variables diverged — is unreachable. -/
theorem do_request_aux_eq (maxRetries : ℤ) (outcome : ℕ → AttemptOutcome) :
    ∀ (rem a : ℕ) (eS eA : Option String),
      (a : ℤ) + (rem : ℤ) = ((maxRetries + 1).toNat : ℤ) →
      (rem = 0 → eS = eA) →
      sync_do_request_aux maxRetries outcome rem a eS =
        async_do_request_aux maxRetries outcome rem a eA := by
  intro rem
  induction rem with
  | zero =>
    intro a eS eA hsum hbase
    rw [hbase rfl]
    cases eA <;> simp [sync_do_request_aux, async_do_request_aux]
  | succ n ih =>
    intro a eS eA hsum hbase
    cases houtcome : outcome a with
    | response r =>
      by_cases hcond : r.status < 500 ∧ r.status ≠ 429
      · simp [sync_do_request_aux, async_do_request_aux, houtcome, hcond]
      · by_cases hlt : (a : ℤ) < maxRetries
        · have hrec := ih (a + 1) none eA (by push_cast at hsum ⊢; omega)
            (by intro h0; subst h0; exfalso; push_cast at hsum; omega)
          have hbd : backoff_delay a (some r) = async_backoff_delay a (some r) :=
            rfl
          simp only [sync_do_request_aux, async_do_request_aux, houtcome,
            if_neg hcond, if_pos hlt, hrec, hbd]
        · simp [sync_do_request_aux, async_do_request_aux, houtcome, hcond, hlt]
    | transportError e =>
      by_cases hlt : (a : ℤ) < maxRetries
      · have hrec := ih (a + 1) (some e) (some e) (by push_cast at hsum ⊢; omega)
          (fun _ => rfl)
        have hbd : backoff_delay a none = async_backoff_delay a none := rfl
        simp only [sync_do_request_aux, async_do_request_aux, houtcome,
          if_pos hlt, hrec, hbd]
      · simp [sync_do_request_aux, async_do_request_aux, houtcome, hlt]

/-- The synchronous and asynchronous poll loops are extensionally equal on
every snapshot trace. -/
theorem poll_loop_eq (job_id : String) (deadline timeout base : ℚ) :
    ∀ trace, poll_loop job_id deadline timeout base trace =
      async_poll_loop job_id deadline timeout base trace := by
  intro trace
  induction trace with
  | nil => rfl
  | cons ht rest ih =>
    obtain ⟨job, now⟩ := ht
    have hpi : pollIteration job_id job now deadline timeout base =
        async_pollIteration job_id job now deadline timeout base := rfl
    simp only [poll_loop, async_poll_loop]
    rw [← hpi]
    cases hstep : pollIteration job_id job now deadline timeout base <;>
      simp [hstep, ih]

/-- C6: for every identical sequence of per-attempt outcomes the
synchronous and asynchronous clients return or raise identically with the
same number of attempts and the same backoff delay values, the two
`_backoff_delay` functions agree on every input, and the two poll loops
produce the same outcome and the same interval values on every snapshot
trace — the variants differ only in how waiting is expressed. -/
theorem sync_async_equivalence :
    (∀ a r, backoff_delay a r = async_backoff_delay a r) ∧
    (∀ maxRetries outcome,
      sync_do_request maxRetries outcome = async_do_request maxRetries outcome) ∧
    (∀ job_id deadline timeout base trace,
      poll_loop job_id deadline timeout base trace =
        async_poll_loop job_id deadline timeout base trace) := by
  refine ⟨fun a r => rfl, ?_, ?_⟩
  · intro m o
    exact do_request_aux_eq m o (m + 1).toNat 0 none none (by omega)
      (fun _ => rfl)
  · intro job_id deadline timeout base trace
    exact poll_loop_eq job_id deadline timeout base trace
